import Mathlib

/-!
Shallow embedding of the qq-farm-bot entry point (client.js) and its
credential store (src/codeManager.js), with theorems checking the
natural-language specification against the code.

Modelling conventions:
* The entry point side effects (starting/stopping the automation loops,
  scheduling timers, deleting the credential file, closing the socket,
  exiting the process) are recorded as an explicit trace of `Action`s, in
  the order the JavaScript statements execute.
* Interval configuration values are millisecond counts; `parseArgs` only
  ever stores `max(i, 1) * 1000 ≥ 1000`, so the configuration record uses
  `Nat` for them.
* JavaScript truthiness of the values that actually flow through the code
  (strings, the boolean `true` stored by `Map.set(key, true)`, numbers
  possibly NaN) is modelled explicitly; `parseInt` is an external builtin
  and is passed in as an oracle `String → Option Int` with `none` playing
  the role of NaN.
-/

namespace QQFarmBot

/-- Model of the JavaScript builtin `String.prototype.startsWith`,
computed on the character list so it evaluates inside the kernel. -/
def jsStartsWith (s pre : String) : Bool :=
  pre.data.isPrefixOf s.data

/-- Model of the JavaScript builtin `String.prototype.trim`: drop
whitespace from both ends, computed on the character list. -/
def jsTrim (s : String) : String :=
  String.mk
    (((s.data.dropWhile Char.isWhitespace).reverse.dropWhile
        Char.isWhitespace).reverse)

/-- One observable side effect of the entry point, in program order.
`connectAttempt` marks a (re)connection request; the post-start code of
client.js never emits it, which is what several claims are about. -/
inductive Action where
  | processInviteCodes
  | startFarmLoop
  | startFriendLoop
  | initTaskSystem
  | scheduleSellOnce (delayMs : Nat)
  | startSellLoop (intervalMs : Nat)
  | logWarnLogin (reason : String)
  | logDeleteOldCode
  | deleteCodeFile
  | cleanupStatusBar
  | stopFarmLoop
  | stopFriendLoop
  | cleanupTaskSystem
  | stopSellLoop
  | cleanupNetwork
  | logExitMsg
  | wsClose
  | processExit (code : Nat)
  | logDisconnected (code : Int)
  | connectAttempt
deriving DecidableEq

/-- The two interval configuration values of CONFIG (milliseconds).
client.js only ever assigns `Math.max(i, 1) * 1000` to them, hence `Nat`. -/
structure Config where
  farmCheckInterval : Nat
  friendCheckInterval : Nat
deriving DecidableEq

/-- client.js line 175: `const INITIAL_SELL_DELAY_MS = 5000`. -/
def INITIAL_SELL_DELAY_MS : Nat := 5000

/-- client.js line 176: `const SELL_LOOP_INTERVAL_MS = 60000`. -/
def SELL_LOOP_INTERVAL_MS : Nat := 60000

/-- Trace of `onLoginSuccess` (client.js lines 301-317): process invite
codes, start the farm loop, start the friend loop only when
`CONFIG.farmCheckInterval > 0`, start the task system, schedule one
warehouse sell after `INITIAL_SELL_DELAY_MS`, start the sell loop with
`SELL_LOOP_INTERVAL_MS`. -/
def onLoginSuccessActions (cfg : Config) : List Action :=
  [Action.processInviteCodes, Action.startFarmLoop]
    ++ (if 0 < cfg.farmCheckInterval then [Action.startFriendLoop] else [])
    ++ [Action.initTaskSystem,
        Action.scheduleSellOnce INITIAL_SELL_DELAY_MS,
        Action.startSellLoop SELL_LOOP_INTERVAL_MS]

/-- Trace of `shutdownAllModules` (client.js lines 203-210). -/
def shutdownAllModulesActions : List Action :=
  [Action.cleanupStatusBar, Action.stopFarmLoop, Action.stopFriendLoop,
   Action.cleanupTaskSystem, Action.stopSellLoop, Action.cleanupNetwork]

/-- Trace of `close` (client.js lines 293-299): shut all modules down, log,
close the WebSocket when `getWs()` returned one, then `process.exit(0)`.
`wsPresent` models whether `getWs()` is non-null. -/
def closeActions (wsPresent : Bool) : List Action :=
  shutdownAllModulesActions ++ [Action.logExitMsg]
    ++ (if wsPresent then [Action.wsClose] else [])
    ++ [Action.processExit 0]

/-- Trace of `onLoginError` (client.js lines 319-325): warn with the
server-reported reason (`err.message`), log, delete the saved code file,
then run `close()`. It consults nothing else - in particular neither
`options.useSavedCode` nor any retry counter. -/
def onLoginErrorActions (wsPresent : Bool) (reason : String) : List Action :=
  [Action.logWarnLogin reason, Action.logDeleteOldCode, Action.deleteCodeFile]
    ++ closeActions wsPresent

/-- Result of the login handshake as reported by the network layer to the
entry point through `connect(code, onLoginSuccess, onLoginError)`. -/
inductive LoginOutcome where
  | success
  | failure (reason : String)
deriving DecidableEq

/-- Dispatch of the two login callbacks registered by `connect` in `main`
(client.js line 327): exactly one of them runs, selected by the outcome. -/
def entryAfterLogin (cfg : Config) (wsPresent : Bool) : LoginOutcome → List Action
  | LoginOutcome.success => onLoginSuccessActions cfg
  | LoginOutcome.failure r => onLoginErrorActions wsPresent r

/-- Recognizer for a (re)connection attempt in a trace. -/
def isConnectAttempt : Action → Bool
  | Action.connectAttempt => true
  | _ => false

/-- Recognizer for the log emitted by the `disconnected` handler. -/
def isDisconnectLog : Action → Bool
  | Action.logDisconnected _ => true
  | _ => false

/-- External events the running entry point reacts to (client.js lines
330-336): the `disconnected` network event and the SIGINT signal. -/
inductive Ev where
  | sigint
  | disconnected (code : Int)
deriving DecidableEq

/-- One event dispatch step. `process.on(SIGINT, close)` runs `close` on
every SIGINT; `networkEvents.once(disconnected, ...)` logs and runs `close`
the first time only - the `used` flag models the listener removal done by
`once`. Returns the emitted trace and the updated flag. -/
def handleEvent (wsPresent : Bool) (used : Bool) : Ev → List Action × Bool
  | Ev.sigint => (closeActions wsPresent, used)
  | Ev.disconnected c =>
      if used then ([], used)
      else (Action.logDisconnected c :: closeActions wsPresent, true)

/-- Trace of a whole event sequence, threading the once-flag. -/
def processEvents (wsPresent : Bool) : Bool → List Ev → List Action
  | _, [] => []
  | used, e :: rest =>
      (handleEvent wsPresent used e).1
        ++ processEvents wsPresent (handleEvent wsPresent used e).2 rest

/-! ### Command-line argument map (client.js `getArgsMap`, lines 93-116) -/

/-- A value stored in the args `Map`: JavaScript `true` (stored for tokens
without a `--` prefix) or the following argument string. -/
inductive ArgVal where
  | flagTrue
  | str (s : String)
deriving DecidableEq

/-- The args map, in `Map` insertion order. -/
abbrev ArgsMap := List (String × ArgVal)

/-- JavaScript `Map.prototype.set`: overwrite in place when the key is
present, otherwise append. -/
def mapSet (m : ArgsMap) (k : String) (v : ArgVal) : ArgsMap :=
  if m.any (fun p => p.1 == k) then
    m.map (fun p => if p.1 == k then (k, v) else p)
  else m ++ [(k, v)]

/-- `Map.prototype.get` as used on the result. -/
def mapLookup (m : ArgsMap) (k : String) : Option ArgVal :=
  (m.find? (fun p => p.1 == k)).map (fun p => p.2)

/-- `getArgsMap` (client.js lines 93-116), with the index loop unrolled on
the list: a token without `--` prefix is stored with value `true`; a
`--`-prefixed token that is the last element breaks out of the loop; a
`--`-prefixed token otherwise consumes the next token, storing the pair
only when the consumed token does not itself start with `--`. -/
def getArgsMapGo : List String → ArgsMap → ArgsMap
  | [], m => m
  | [key], m =>
      if jsStartsWith key "--" then m
      else mapSet m key ArgVal.flagTrue
  | key :: value :: rest, m =>
      if jsStartsWith key "--" then
        if jsStartsWith value "--" then getArgsMapGo rest m
        else getArgsMapGo rest (mapSet m key (ArgVal.str value))
      else getArgsMapGo (value :: rest) (mapSet m key ArgVal.flagTrue)

/-- Entry point of the parser: starts from the empty map. -/
def getArgsMap (args : List String) : ArgsMap :=
  getArgsMapGo args []

/-! ### `parseArgs` (client.js lines 118-172)

`parseInt` is a JavaScript builtin, modelled as an oracle
`pInt : String → Option Int` where `none` stands for NaN; `parseInt`
applied to a non-string (`undefined`, `true`) is NaN. -/

/-- The relevant environment variables; `none` = unset. -/
structure EnvVars where
  CODE : Option String
  PLATFORM : Option String
  QR_LOGIN : Option String
  INTERVAL : Option String
  FRIEND_INTERVAL : Option String

/-- JavaScript truthiness of the credential slot `options.code`, which
holds a string or (only via a degenerate args map) the boolean `true`. -/
def jsTruthyArg : ArgVal → Bool
  | ArgVal.flagTrue => true
  | ArgVal.str s => decide (s ≠ "")

/-- `x || 0` on a possibly-NaN number. -/
def jsOr0 : Option Int → Int
  | none => 0
  | some n => n

/-- JavaScript truthiness of a possibly-NaN number (`NaN` and `0` falsy). -/
def jsTruthyInt : Option Int → Bool
  | none => false
  | some n => decide (n ≠ 0)

/-- `parseInt(value)` where `value` came out of the args map. -/
def jsParseIntArg (pInt : String → Option Int) : ArgVal → Option Int
  | ArgVal.flagTrue => none
  | ArgVal.str s => pInt s

/-- Mutable state of `parseArgs` while it scans the args map. -/
structure PAState where
  code : ArgVal
  qrLogin : Bool
  platform : String
  interval : Option Int
  friendInterval : Option Int

/-- One iteration of the `for (const [key, value] of argsMap)` switch
(client.js lines 140-161). -/
def paStep (pInt : String → Option Int) (st : PAState) (kv : String × ArgVal) :
    PAState :=
  if kv.1 = "--code" then { st with code := kv.2 }
  else if kv.1 = "--qr" then
    { st with qrLogin := decide (kv.2 = ArgVal.flagTrue ∨ kv.2 = ArgVal.str "true") }
  else if kv.1 = "--wx" then { st with platform := "wx" }
  else if kv.1 = "--qq" then { st with platform := "qq" }
  else if kv.1 = "--interval" then { st with interval := jsParseIntArg pInt kv.2 }
  else if kv.1 = "--friend-interval" then
    { st with friendInterval := jsParseIntArg pInt kv.2 }
  else st

/-- `if (interval) CONFIG.xInterval = Math.max(interval, 1) * 1000`
(client.js lines 163-169): `some v` when the assignment fires with value
`v`, `none` when CONFIG is left untouched. -/
def appliedMs (o : Option Int) : Option Int :=
  if jsTruthyInt o then some (max (jsOr0 o) 1 * 1000) else none

/-- What `parseArgs` produces: the option record plus the configuration
assignments it performed. -/
structure ParseResult where
  code : ArgVal
  qrLogin : Bool
  platform : String
  farmSet : Option Int
  friendSet : Option Int

/-- The environment-variable phase of `parseArgs` (client.js lines
120-137): option defaults, then `CODE`, `PLATFORM`, `QR_LOGIN`, and the
`parseInt(...) || 0` reads of the two interval variables. -/
def paInit (pInt : String → Option Int) (env : EnvVars) (platform0 : String) :
    PAState :=
  let code0 : ArgVal :=
    match env.CODE with
    | some s => if s = "" then ArgVal.str "" else ArgVal.str s
    | none => ArgVal.str ""
  let platform1 : String :=
    match env.PLATFORM with
    | some p => if p = "qq" ∨ p = "wx" then p else platform0
    | none => platform0
  { code := code0,
    qrLogin := decide (env.QR_LOGIN = some "true"),
    platform := platform1,
    interval := some (jsOr0 (env.INTERVAL.bind pInt)),
    friendInterval := some (jsOr0 (env.FRIEND_INTERVAL.bind pInt)) }

/-- `parseArgs` (client.js lines 118-172): seed the option record from the
environment, override with the args map in insertion order, then apply the
truthy interval values to CONFIG with a floor of 1 second. -/
def parseArgs (pInt : String → Option Int) (env : EnvVars) (platform0 : String)
    (argsMap : ArgsMap) : ParseResult :=
  let stF := argsMap.foldl (paStep pInt) (paInit pInt env platform0)
  { code := stF.code, qrLogin := stF.qrLogin, platform := stF.platform,
    farmSet := appliedMs stF.interval,
    friendSet := appliedMs stF.friendInterval }

/-! ### Credential resolution in `main` (client.js lines 249-263) -/

/-- Outcome of the saved-code and QR-scan fallback steps of `main`. -/
structure CodeResolution where
  code : ArgVal
  usedSavedCode : Bool
  usedQrLogin : Bool
  consultedSaved : Bool
  scanned : Bool

/-- Guard of the saved-code step (client.js line 250):
`!options.code && CONFIG.platform === qq`. -/
def consultSavedCond (code0 : ArgVal) (platform : String) : Bool :=
  !jsTruthyArg code0 && platform == "qq"

/-- The saved-code step (client.js lines 250-257): when the guard holds and
`loadCode()` returned a truthy string, adopt it and set `useSavedCode`. -/
def savedStep (code0 : ArgVal) (platform : String) (saved : Option String) :
    ArgVal × Bool :=
  if consultSavedCond code0 platform then
    match saved with
    | some sc => if sc = "" then (code0, false) else (ArgVal.str sc, true)
    | none => (code0, false)
  else (code0, false)

/-- Guard of the QR-scan step (client.js line 260):
`!options.code && CONFIG.platform === qq && (options.qrLogin || !args.includes(--code))`. -/
def scanCond (code1 : ArgVal) (platform : String) (qrLogin : Bool)
    (argsHasCodeToken : Bool) : Bool :=
  !jsTruthyArg code1 && platform == "qq" && (qrLogin || !argsHasCodeToken)

/-- Credential resolution of `main` after `parseArgs` (client.js lines
249-263): try the already-resolved explicit code, then the saved file, then
a fresh QR scan. `scanCode` is the code a scan would produce. -/
def resolveLoginCode (code0 : ArgVal) (platform : String) (saved : Option String)
    (qrLogin : Bool) (argsHasCodeToken : Bool) (scanCode : String) :
    CodeResolution :=
  let s := savedStep code0 platform saved
  if scanCond s.1 platform qrLogin argsHasCodeToken then
    { code := ArgVal.str scanCode, usedSavedCode := s.2, usedQrLogin := true,
      consultedSaved := consultSavedCond code0 platform, scanned := true }
  else
    { code := s.1, usedSavedCode := s.2, usedQrLogin := false,
      consultedSaved := consultSavedCond code0 platform, scanned := false }

/-! ### Credential store (src/codeManager.js)

The store owns a single file (`.farmcode`); the filesystem state is its
content, `none` = absent. Each `fs` primitive can also fail with an I/O
error; the `FsEnv` oracle says which primitives fail. A JavaScript function
either returns a value or throws: modelled as `Except FsErr`. The
`try/catch` wrappers of codeManager.js turn every error into a normal
return, which is what the theorems check. -/

/-- Content of the `.farmcode` file, `none` when the file is absent. -/
abbrev FS := Option String

/-- Error oracle: which `fs` primitives throw an I/O error in this run. -/
structure FsEnv where
  writeErr : Bool
  existsErr : Bool
  readErr : Bool
  unlinkErr : Bool

/-- Thrown filesystem errors. -/
inductive FsErr where
  | ioError
  | enoent
deriving DecidableEq

/-- `fs.writeFileSync(CODE_FILE, code)`: replaces the file content. -/
def fsWriteFileSync (e : FsEnv) (fs : FS) (content : String) : Except FsErr FS :=
  if e.writeErr then Except.error FsErr.ioError else Except.ok (some content)

/-- `fs.existsSync(CODE_FILE)`. -/
def fsExistsSync (e : FsEnv) (fs : FS) : Except FsErr Bool :=
  if e.existsErr then Except.error FsErr.ioError else Except.ok fs.isSome

/-- `fs.readFileSync(CODE_FILE)`: throws ENOENT on an absent file. -/
def fsReadFileSync (e : FsEnv) (fs : FS) : Except FsErr String :=
  if e.readErr then Except.error FsErr.ioError
  else
    match fs with
    | some c => Except.ok c
    | none => Except.error FsErr.enoent

/-- `fs.unlinkSync(CODE_FILE)`: throws ENOENT on an absent file. -/
def fsUnlinkSync (e : FsEnv) (fs : FS) : Except FsErr FS :=
  if e.unlinkErr then Except.error FsErr.ioError
  else
    match fs with
    | some _ => Except.ok none
    | none => Except.error FsErr.enoent

/-- `saveCode` (codeManager.js lines 14-20): write inside try, catch logs a
warning and returns normally with the filesystem untouched. Result is the
filesystem state after the call; `Except.ok` always, since the catch
swallows the error. -/
def saveCode (e : FsEnv) (fs : FS) (code : String) : Except FsErr FS :=
  match fsWriteFileSync e fs code with
  | Except.ok fs2 => Except.ok fs2
  | Except.error _ => Except.ok fs

/-- Body of the `try` block of `loadCode` (codeManager.js lines 27-34),
including the fall-through `return null` for an absent file. -/
def loadCodeTry (e : FsEnv) (fs : FS) : Except FsErr (Option String) :=
  match fsExistsSync e fs with
  | Except.error er => Except.error er
  | Except.ok ex =>
      if ex then
        match fsReadFileSync e fs with
        | Except.error er => Except.error er
        | Except.ok raw =>
            let code := jsTrim raw
            Except.ok (if code = "" then none else some code)
      else Except.ok none

/-- `loadCode` (codeManager.js lines 26-36): trimmed content when truthy,
`null` otherwise; any caught error also yields `null`. -/
def loadCode (e : FsEnv) (fs : FS) : Except FsErr (Option String) :=
  match loadCodeTry e fs with
  | Except.ok r => Except.ok r
  | Except.error _ => Except.ok none

/-- Body of the `try` block of `deleteCode` (codeManager.js lines 42-45). -/
def deleteCodeTry (e : FsEnv) (fs : FS) : Except FsErr FS :=
  match fsExistsSync e fs with
  | Except.error er => Except.error er
  | Except.ok ex => if ex then fsUnlinkSync e fs else Except.ok fs

/-- `deleteCode` (codeManager.js lines 41-49): unlink when present; any
caught error leaves the filesystem as it was and returns normally. -/
def deleteCode (e : FsEnv) (fs : FS) : Except FsErr FS :=
  match deleteCodeTry e fs with
  | Except.ok fs2 => Except.ok fs2
  | Except.error _ => Except.ok fs

/-- Filesystem state after `saveCode`. -/
def afterSave (e : FsEnv) (fs : FS) (code : String) : FS :=
  match saveCode e fs code with
  | Except.ok fs2 => fs2
  | Except.error _ => fs

/-- Filesystem state after `deleteCode`. -/
def afterDelete (e : FsEnv) (fs : FS) : FS :=
  match deleteCode e fs with
  | Except.ok fs2 => fs2
  | Except.error _ => fs

/-- The error-free filesystem environment. -/
def noFsErr : FsEnv :=
  { writeErr := false, existsErr := false, readErr := false, unlinkErr := false }

/-! ## Theorems -/

/-- Claim C1: on successful login the Friend-Patrol loop is started if and
only if the configured own-farm check interval is non-zero (over `Nat`,
non-zero is exactly `0 <`); the friend-check interval value plays no role
in the whole success trace; and the Own-Farm, Task and Warehouse loops are
started unconditionally, for every configuration. -/
theorem c1_friend_loop_gated_on_farm_interval (cfg : Config) (f : Nat) :
    (Action.startFriendLoop ∈ onLoginSuccessActions cfg ↔
      0 < cfg.farmCheckInterval)
    ∧ onLoginSuccessActions
        { farmCheckInterval := cfg.farmCheckInterval, friendCheckInterval := f }
        = onLoginSuccessActions cfg
    ∧ Action.startFarmLoop ∈ onLoginSuccessActions cfg
    ∧ Action.initTaskSystem ∈ onLoginSuccessActions cfg
    ∧ Action.scheduleSellOnce INITIAL_SELL_DELAY_MS ∈ onLoginSuccessActions cfg
    ∧ Action.startSellLoop SELL_LOOP_INTERVAL_MS ∈ onLoginSuccessActions cfg := by
  refine ⟨?_, rfl, ?_, ?_, ?_, ?_⟩ <;>
    by_cases h : 0 < cfg.farmCheckInterval <;>
      simp [onLoginSuccessActions, h]

/-- Claim C2: on a rejected login the error callback trace carries the
server-reported reason, none of the four automation loops (own-farm,
friend-patrol, task, warehouse) appears in it, and any outcome whose trace
starts the farm loop must be the success outcome — loop start-up happens
only in the success callback. -/
theorem c2_login_rejected_no_loops (cfg : Config) (ws : Bool) (r : String)
    (i d : Nat) (o : LoginOutcome)
    (ho : Action.startFarmLoop ∈ entryAfterLogin cfg ws o) :
    Action.logWarnLogin r ∈ entryAfterLogin cfg ws (LoginOutcome.failure r)
    ∧ Action.startFarmLoop ∉ entryAfterLogin cfg ws (LoginOutcome.failure r)
    ∧ Action.startFriendLoop ∉ entryAfterLogin cfg ws (LoginOutcome.failure r)
    ∧ Action.initTaskSystem ∉ entryAfterLogin cfg ws (LoginOutcome.failure r)
    ∧ Action.scheduleSellOnce d ∉ entryAfterLogin cfg ws (LoginOutcome.failure r)
    ∧ Action.startSellLoop i ∉ entryAfterLogin cfg ws (LoginOutcome.failure r)
    ∧ o = LoginOutcome.success := by
  have hsucc : o = LoginOutcome.success := by
    cases o with
    | success => rfl
    | failure r2 =>
        exfalso
        cases ws <;>
          simp [entryAfterLogin, onLoginErrorActions, closeActions,
            shutdownAllModulesActions] at ho
  refine ⟨?_, ?_, ?_, ?_, ?_, ?_, hsucc⟩ <;>
    cases ws <;>
      simp [entryAfterLogin, onLoginErrorActions, closeActions,
        shutdownAllModulesActions]

/-- Claim C2 witness: concrete instance with a rejected login. -/
theorem c2_witness :
    Action.logWarnLogin "LOGIN_REJECTED" ∈
      entryAfterLogin { farmCheckInterval := 10000, friendCheckInterval := 1000 }
        true (LoginOutcome.failure "LOGIN_REJECTED")
    ∧ Action.startFarmLoop ∉
      entryAfterLogin { farmCheckInterval := 10000, friendCheckInterval := 1000 }
        true (LoginOutcome.failure "LOGIN_REJECTED")
    ∧ Action.startFriendLoop ∉
      entryAfterLogin { farmCheckInterval := 10000, friendCheckInterval := 1000 }
        true (LoginOutcome.failure "LOGIN_REJECTED")
    ∧ Action.initTaskSystem ∉
      entryAfterLogin { farmCheckInterval := 10000, friendCheckInterval := 1000 }
        true (LoginOutcome.failure "LOGIN_REJECTED")
    ∧ Action.scheduleSellOnce 0 ∉
      entryAfterLogin { farmCheckInterval := 10000, friendCheckInterval := 1000 }
        true (LoginOutcome.failure "LOGIN_REJECTED")
    ∧ Action.startSellLoop 0 ∉
      entryAfterLogin { farmCheckInterval := 10000, friendCheckInterval := 1000 }
        true (LoginOutcome.failure "LOGIN_REJECTED")
    ∧ LoginOutcome.success = LoginOutcome.success :=
  c2_login_rejected_no_loops
    { farmCheckInterval := 10000, friendCheckInterval := 1000 }
    true "LOGIN_REJECTED" 0 0 LoginOutcome.success (by decide)

/-- Claim C3 counterexample: at the concrete scenario of the claim (a saved
credential was in use, first login failure, socket present), the login
error trace of client.js contains zero connection attempts — refuting the
claimed single retry with a freshly acquired credential — while it does
delete the credential file and exits. `onLoginErrorActions` does not read
the saved-credential flag at all, so this is the trace of that scenario. -/
theorem c3_counterexample :
    (onLoginErrorActions true "code expired").any isConnectAttempt = false
    ∧ Action.deleteCodeFile ∈ onLoginErrorActions true "code expired"
    ∧ Action.processExit 0 ∈ onLoginErrorActions true "code expired" := by
  decide

/-- Claim C3 amended: on any login failure — whether or not a saved
credential was being used — the entry point logs the reason, deletes the
saved credential file, stops every module, closes the socket path and
exits; it never attempts a retry (no connection attempt in the trace). -/
theorem c3_login_error_deletes_and_terminates (ws : Bool) (r : String) :
    Action.logWarnLogin r ∈ onLoginErrorActions ws r
    ∧ Action.deleteCodeFile ∈ onLoginErrorActions ws r
    ∧ (onLoginErrorActions ws r).any isConnectAttempt = false
    ∧ Action.stopFarmLoop ∈ onLoginErrorActions ws r
    ∧ Action.stopFriendLoop ∈ onLoginErrorActions ws r
    ∧ Action.cleanupTaskSystem ∈ onLoginErrorActions ws r
    ∧ Action.stopSellLoop ∈ onLoginErrorActions ws r
    ∧ Action.cleanupNetwork ∈ onLoginErrorActions ws r
    ∧ Action.processExit 0 ∈ onLoginErrorActions ws r := by
  cases ws <;>
    simp [onLoginErrorActions, closeActions, shutdownAllModulesActions,
      isConnectAttempt]

/-- Claim C6: the success trace schedules exactly one initial warehouse
sell pass, with the fixed 5000 ms delay, and starts the sell loop exactly
once with the fixed 60000 ms cadence; no other delay or cadence value ever
appears, whatever the configured intervals are. -/
theorem c6_sell_constants (cfg : Config) (d i : Nat)
    (hd : d ≠ INITIAL_SELL_DELAY_MS) (hi : i ≠ SELL_LOOP_INTERVAL_MS) :
    (onLoginSuccessActions cfg).count
        (Action.scheduleSellOnce INITIAL_SELL_DELAY_MS) = 1
    ∧ (onLoginSuccessActions cfg).count
        (Action.startSellLoop SELL_LOOP_INTERVAL_MS) = 1
    ∧ Action.scheduleSellOnce d ∉ onLoginSuccessActions cfg
    ∧ Action.startSellLoop i ∉ onLoginSuccessActions cfg
    ∧ INITIAL_SELL_DELAY_MS = 5000
    ∧ SELL_LOOP_INTERVAL_MS = 60000 := by
  refine ⟨?_, ?_, ?_, ?_, rfl, rfl⟩ <;>
    by_cases h : 0 < cfg.farmCheckInterval <;>
      simp [onLoginSuccessActions, h, hd, hi]

/-- Claim C6 witness: concrete configuration and off-constant values. -/
theorem c6_witness :
    (onLoginSuccessActions
        { farmCheckInterval := 10000, friendCheckInterval := 1000 }).count
        (Action.scheduleSellOnce INITIAL_SELL_DELAY_MS) = 1
    ∧ (onLoginSuccessActions
        { farmCheckInterval := 10000, friendCheckInterval := 1000 }).count
        (Action.startSellLoop SELL_LOOP_INTERVAL_MS) = 1
    ∧ Action.scheduleSellOnce 7 ∉ onLoginSuccessActions
        { farmCheckInterval := 10000, friendCheckInterval := 1000 }
    ∧ Action.startSellLoop 9 ∉ onLoginSuccessActions
        { farmCheckInterval := 10000, friendCheckInterval := 1000 }
    ∧ INITIAL_SELL_DELAY_MS = 5000
    ∧ SELL_LOOP_INTERVAL_MS = 60000 :=
  c6_sell_constants { farmCheckInterval := 10000, friendCheckInterval := 1000 }
    7 9 (by decide) (by decide)

/-- The close path never contains a connection attempt. -/
theorem closeActions_no_connect (ws : Bool) :
    (closeActions ws).any isConnectAttempt = false := by
  cases ws <;> decide

/-- The close path never contains a disconnected-handler log entry. -/
theorem closeActions_no_disconnect_log (ws : Bool) :
    (closeActions ws).countP isDisconnectLog = 0 := by
  cases ws <;> decide

/-- No event sequence ever produces a connection attempt. -/
theorem processEvents_no_connect (ws : Bool) (evs : List Ev) :
    ∀ used, (processEvents ws used evs).any isConnectAttempt = false := by
  induction evs with
  | nil => intro used; rfl
  | cons e rest ih =>
      intro used
      cases e with
      | sigint =>
          simp [processEvents, handleEvent, List.any_append,
            closeActions_no_connect, ih used]
      | disconnected c =>
          cases used with
          | true => simpa [processEvents, handleEvent] using ih true
          | false =>
              simp [processEvents, handleEvent, List.any_append,
                closeActions_no_connect, isConnectAttempt, ih true]

/-- The disconnected handler contributes at most once overall; once the
`once` flag is consumed, never again. -/
theorem processEvents_disconnect_once (ws : Bool) (evs : List Ev) :
    ∀ used, (processEvents ws used evs).countP isDisconnectLog ≤
      if used then 0 else 1 := by
  induction evs with
  | nil => intro used; simp [processEvents]
  | cons e rest ih =>
      intro used
      cases e with
      | sigint =>
          have h := ih used
          simpa [processEvents, handleEvent, List.countP_append,
            closeActions_no_disconnect_log] using h
      | disconnected c =>
          cases used with
          | true => simpa [processEvents, handleEvent] using ih true
          | false =>
              have h0 : List.countP isDisconnectLog (processEvents ws true rest)
                  = 0 := by simpa using ih true
              simp [processEvents, handleEvent, List.countP_append,
                List.countP_cons, closeActions_no_disconnect_log]
              rw [h0]
              simp [isDisconnectLog]

/-- Claim C7: SIGINT and the first `disconnected` event both run the very
same close path; that path stops all four loops and the status bar, cleans
up the session, closes the WebSocket when present and exits the process; a
second `disconnected` event produces nothing; and over any event sequence
no reconnection is ever attempted and the disconnect handler fires at most
once. -/
theorem c7_shutdown_funnel (ws : Bool) (c : Int) (evs : List Ev) :
    (handleEvent ws false Ev.sigint).1 = closeActions ws
    ∧ (handleEvent ws false (Ev.disconnected c)).1 =
        Action.logDisconnected c :: closeActions ws
    ∧ (handleEvent ws true (Ev.disconnected c)).1 = []
    ∧ Action.cleanupStatusBar ∈ closeActions ws
    ∧ Action.stopFarmLoop ∈ closeActions ws
    ∧ Action.stopFriendLoop ∈ closeActions ws
    ∧ Action.cleanupTaskSystem ∈ closeActions ws
    ∧ Action.stopSellLoop ∈ closeActions ws
    ∧ Action.cleanupNetwork ∈ closeActions ws
    ∧ Action.processExit 0 ∈ closeActions ws
    ∧ Action.wsClose ∈ closeActions true
    ∧ (processEvents ws false evs).any isConnectAttempt = false
    ∧ (processEvents ws false evs).countP isDisconnectLog ≤ 1 := by
  refine ⟨rfl, rfl, rfl, ?_, ?_, ?_, ?_, ?_, ?_, ?_, by decide,
    processEvents_no_connect ws evs false, ?_⟩
  · cases ws <;> decide
  · cases ws <;> decide
  · cases ws <;> decide
  · cases ws <;> decide
  · cases ws <;> decide
  · cases ws <;> decide
  · cases ws <;> decide
  · simpa using processEvents_disconnect_once ws evs false

/-- Claim C8: for a non-empty credential with no surrounding whitespace
(`jsTrim code = code`), `loadCode` after `saveCode code` returns exactly
`code`; `loadCode` returns null on an absent file and on whitespace-only
stored content. All in the error-free filesystem environment. -/
theorem c8_save_load_roundtrip (fs : FS) (code blank : String)
    (h1 : code ≠ "") (h2 : jsTrim code = code) (h3 : jsTrim blank = "") :
    loadCode noFsErr (afterSave noFsErr fs code) = Except.ok (some code)
    ∧ loadCode noFsErr none = Except.ok none
    ∧ loadCode noFsErr (some blank) = Except.ok none := by
  have hsave : afterSave noFsErr fs code = some code := rfl
  rw [hsave]
  refine ⟨?_, rfl, ?_⟩
  · simp [loadCode, loadCodeTry, fsExistsSync, fsReadFileSync, noFsErr, h2, h1]
  · simp [loadCode, loadCodeTry, fsExistsSync, fsReadFileSync, noFsErr, h3]

/-- Claim C8 witness: concrete round trip and null cases. -/
theorem c8_witness :
    ("abc" ≠ "" ∧ jsTrim "abc" = "abc" ∧ jsTrim " " = "")
    ∧ loadCode noFsErr (afterSave noFsErr none "abc") = Except.ok (some "abc")
    ∧ loadCode noFsErr none = Except.ok none
    ∧ loadCode noFsErr (some " ") = Except.ok none :=
  ⟨⟨by decide, by decide, by decide⟩,
    c8_save_load_roundtrip none "abc" " " (by decide) (by decide) (by decide)⟩

/-- Appending a `--`-prefixed token at the end of the argument list leaves
the parsed map unchanged, whatever was accumulated before: the final flag
either hits the early break or is consumed as a skipped `--` value. -/
theorem getArgsMapGo_append_flag (f : String) (hf : jsStartsWith f "--" = true) :
    ∀ xs m, getArgsMapGo (xs ++ [f]) m = getArgsMapGo xs m := by
  intro xs m
  induction xs, m using getArgsMapGo.induct <;> simp_all [getArgsMapGo, hf]

/-- Claim C9: a `--`-prefixed argument in last position is never recorded
(the map is the same as without it); two adjacent `--`-prefixed arguments
are both dropped — the first is not recorded and the second is consumed
without ever being treated as a key; in particular neither of the pair
shows up in the map. -/
theorem c9_args_map_flag_loss (xs rest : List String) (a b f : String)
    (m : ArgsMap) (ha : jsStartsWith a "--" = true)
    (hb : jsStartsWith b "--" = true) (hf : jsStartsWith f "--" = true) :
    getArgsMap (xs ++ [f]) = getArgsMap xs
    ∧ getArgsMapGo (a :: b :: rest) m = getArgsMapGo rest m
    ∧ mapLookup (getArgsMap [a, b]) a = none
    ∧ mapLookup (getArgsMap [a, b]) b = none := by
  refine ⟨getArgsMapGo_append_flag f hf xs [], ?_, ?_, ?_⟩
  · simp [getArgsMapGo, ha, hb]
  · simp [getArgsMap, getArgsMapGo, ha, hb, mapLookup]
  · simp [getArgsMap, getArgsMapGo, ha, hb, mapLookup]

/-- Claim C9 witness: concrete flag-loss instances. -/
theorem c9_witness :
    getArgsMap (["--x", "v"] ++ ["--f"]) = getArgsMap ["--x", "v"]
    ∧ getArgsMapGo ("--a" :: "--b" :: ["w"]) [] = getArgsMapGo ["w"] []
    ∧ mapLookup (getArgsMap ["--a", "--b"]) "--a" = none
    ∧ mapLookup (getArgsMap ["--a", "--b"]) "--b" = none :=
  c9_args_map_flag_loss ["--x", "v"] ["w"] "--a" "--b" "--f" []
    (by decide) (by decide) (by decide)

/-- Claim C10: for every filesystem-error oracle and state, `saveCode`,
`loadCode` and `deleteCode` return normally (`Except.ok`, never a
propagated exception); and `deleteCode` is idempotent on the filesystem
state — on an absent file it changes nothing, and a second consecutive
call changes nothing more. -/
theorem c10_no_exception_delete_idempotent (e : FsEnv) (fs : FS)
    (code : String) :
    (∃ fs2, saveCode e fs code = Except.ok fs2)
    ∧ (∃ r, loadCode e fs = Except.ok r)
    ∧ (∃ fs3, deleteCode e fs = Except.ok fs3)
    ∧ afterDelete e none = none
    ∧ afterDelete e (afterDelete e fs) = afterDelete e fs := by
  obtain ⟨w, x, r2, u⟩ := e
  cases w <;> cases x <;> cases r2 <;> cases u <;> cases fs <;>
    simp [saveCode, loadCode, deleteCode, afterDelete, loadCodeTry,
      deleteCodeTry, fsWriteFileSync, fsExistsSync, fsReadFileSync,
      fsUnlinkSync]

/-- A fired interval assignment is the clamped product form. -/
theorem appliedMs_floor (o : Option Int) (v : Int) (h : appliedMs o = some v) :
    1000 ≤ v ∧ ∃ i : Int, v = max i 1 * 1000 := by
  cases o with
  | none => simp [appliedMs, jsTruthyInt] at h
  | some n =>
      by_cases hn : n = 0
      · simp [appliedMs, jsTruthyInt, hn] at h
      · simp [appliedMs, jsTruthyInt, hn, jsOr0] at h
        constructor
        · rw [← h]
          have h1 := mul_le_mul_of_nonneg_right (le_max_right n 1)
            (by norm_num : (0 : Int) ≤ 1000)
          linarith
        · exact ⟨n, h.symm⟩

/-- Claim C4: every interval value the entry point actually applies to the
configuration — own-farm or friend, from CLI or environment, through any
`parseInt` behaviour — is at least 1000 ms, and is of the clamped form
`max i 1 * 1000`. -/
theorem c4_interval_floor
    (pIntF pIntG : String → Option Int) (envF envG : EnvVars)
    (pf pg : String) (mF mG : ArgsMap) (v w : Int)
    (hv : (parseArgs pIntF envF pf mF).farmSet = some v)
    (hw : (parseArgs pIntG envG pg mG).friendSet = some w) :
    (1000 ≤ v ∧ ∃ i : Int, v = max i 1 * 1000)
    ∧ (1000 ≤ w ∧ ∃ j : Int, w = max j 1 * 1000) :=
  ⟨appliedMs_floor ((mF.foldl (paStep pIntF) (paInit pIntF envF pf)).interval)
      v hv,
   appliedMs_floor
      ((mG.foldl (paStep pIntG) (paInit pIntG envG pg)).friendInterval) w hw⟩

/-- A `parseInt` oracle for the witness: parses the single literal -5. -/
def pIntEx : String → Option Int :=
  fun s => if s = "-5" then some (-5) else none

/-- Witness environment: own-farm interval variable set to -5. -/
def envFarmEx : EnvVars :=
  { CODE := none, PLATFORM := none, QR_LOGIN := none,
    INTERVAL := some "-5", FRIEND_INTERVAL := none }

/-- Witness environment: friend interval variable set to -5. -/
def envFriendEx : EnvVars :=
  { CODE := none, PLATFORM := none, QR_LOGIN := none,
    INTERVAL := none, FRIEND_INTERVAL := some "-5" }

/-- Claim C4 witness: `INTERVAL=-5` and `FRIEND_INTERVAL=-5` are applied
and clamped up to exactly 1000 ms. -/
theorem c4_witness :
    (parseArgs pIntEx envFarmEx "qq" []).farmSet = some 1000
    ∧ (parseArgs pIntEx envFriendEx "qq" []).friendSet = some 1000
    ∧ ((1000 ≤ (1000 : Int) ∧ ∃ i : Int, (1000 : Int) = max i 1 * 1000)
       ∧ (1000 ≤ (1000 : Int) ∧ ∃ j : Int, (1000 : Int) = max j 1 * 1000)) :=
  ⟨by decide, by decide,
    c4_interval_floor pIntEx pIntEx envFarmEx envFriendEx "qq" "qq" [] []
      1000 1000 (by decide) (by decide)⟩

/-- Any switch case other than `--code` leaves `options.code` alone. -/
theorem paStep_code_of_ne (pInt : String → Option Int) (st : PAState)
    (kv : String × ArgVal) (h : kv.1 ≠ "--code") :
    (paStep pInt st kv).code = st.code := by
  unfold paStep
  rw [if_neg h]
  split_ifs <;> rfl

/-- A map segment without a `--code` key leaves `options.code` alone. -/
theorem foldl_paStep_code_of_no_code (pInt : String → Option Int)
    (m : ArgsMap) (st : PAState) (h : ∀ kv ∈ m, kv.1 ≠ "--code") :
    (m.foldl (paStep pInt) st).code = st.code := by
  induction m generalizing st with
  | nil => rfl
  | cons kv rest ih =>
      rw [List.foldl_cons,
        ih _ (fun x hx => h x (List.mem_cons_of_mem kv hx)),
        paStep_code_of_ne pInt st kv (h kv (List.mem_cons_self kv rest))]

/-- The saved-code guard forces: no explicit code yet, platform qq. -/
theorem consultSavedCond_spec (c0 : ArgVal) (plat : String)
    (h : consultSavedCond c0 plat = true) :
    jsTruthyArg c0 = false ∧ plat = "qq" := by
  simp [consultSavedCond] at h
  exact h

/-- Both branches of the resolution record the same guard value. -/
theorem resolveLoginCode_consultedSaved (c0 : ArgVal) (plat : String)
    (saved : Option String) (qr tok : Bool) (scan : String) :
    (resolveLoginCode c0 plat saved qr tok scan).consultedSaved
      = consultSavedCond c0 plat := by
  simp only [resolveLoginCode]
  split <;> rfl

/-- Both branches of the resolution keep the saved-step flag. -/
theorem resolveLoginCode_usedSavedCode_eq (c0 : ArgVal) (plat : String)
    (saved : Option String) (qr tok : Bool) (scan : String) :
    (resolveLoginCode c0 plat saved qr tok scan).usedSavedCode
      = (savedStep c0 plat saved).2 := by
  simp only [resolveLoginCode]
  split <;> rfl

/-- When the saved code is adopted it is a truthy stored string, the guard
held, and it survives as the final code (no scan follows). -/
theorem resolveLoginCode_usedSaved (c0 : ArgVal) (plat : String)
    (saved : Option String) (qr tok : Bool) (scan : String)
    (h : (resolveLoginCode c0 plat saved qr tok scan).usedSavedCode = true) :
    consultSavedCond c0 plat = true
    ∧ ∃ sc, saved = some sc ∧ sc ≠ ""
      ∧ (resolveLoginCode c0 plat saved qr tok scan).code = ArgVal.str sc := by
  rw [resolveLoginCode_usedSavedCode_eq] at h
  cases hc : consultSavedCond c0 plat with
  | false => simp [savedStep, hc] at h
  | true =>
      cases saved with
      | none => simp [savedStep, hc] at h
      | some sc =>
          by_cases hsc : sc = ""
          · simp [savedStep, hc, hsc] at h
          · have hs1 : savedStep c0 plat (some sc) = (ArgVal.str sc, true) := by
              simp [savedStep, hc, hsc]
            have hscan : scanCond (ArgVal.str sc) plat qr tok = false := by
              simp [scanCond, jsTruthyArg, hsc]
            refine ⟨rfl, sc, rfl, hsc, ?_⟩
            simp [resolveLoginCode, hs1, hscan]

/-- A scan happens only with no explicit code, platform qq, nothing usable
saved, and it installs the freshly scanned code. -/
theorem resolveLoginCode_scanned (c0 : ArgVal) (plat : String)
    (saved : Option String) (qr tok : Bool) (scan : String)
    (h : (resolveLoginCode c0 plat saved qr tok scan).scanned = true) :
    jsTruthyArg c0 = false ∧ plat = "qq"
    ∧ (resolveLoginCode c0 plat saved qr tok scan).usedSavedCode = false
    ∧ (saved = none ∨ saved = some "")
    ∧ (resolveLoginCode c0 plat saved qr tok scan).code = ArgVal.str scan := by
  have hcond : scanCond (savedStep c0 plat saved).1 plat qr tok = true := by
    by_contra hne
    have hfalse : scanCond (savedStep c0 plat saved).1 plat qr tok = false :=
      Bool.eq_false_iff.mpr hne
    simp [resolveLoginCode, hfalse] at h
  have hqq : plat = "qq" := by
    simp [scanCond] at hcond
    exact hcond.1.2
  have hs1 : jsTruthyArg (savedStep c0 plat saved).1 = false := by
    simp [scanCond] at hcond
    exact hcond.1.1
  have hc0 : jsTruthyArg c0 = false := by
    by_cases hc : consultSavedCond c0 plat = true
    · exact (consultSavedCond_spec c0 plat hc).1
    · have : (savedStep c0 plat saved).1 = c0 := by
        simp [savedStep, Bool.eq_false_iff.mpr hc]
      rw [this] at hs1
      exact hs1
  have hsavedNil : saved = none ∨ saved = some "" := by
    cases saved with
    | none => exact Or.inl rfl
    | some sc =>
        by_cases hsc : sc = ""
        · exact Or.inr (by rw [hsc])
        · exfalso
          have hcons : consultSavedCond c0 plat = true := by
            simp [consultSavedCond, hc0, hqq]
          have : (savedStep c0 plat (some sc)).1 = ArgVal.str sc := by
            simp [savedStep, hcons, hsc]
          rw [this] at hs1
          simp [jsTruthyArg, hsc] at hs1
  have husedF : (savedStep c0 plat saved).2 = false := by
    rcases hsavedNil with hn | he
    · subst hn
      simp [savedStep]
    · subst he
      simp [savedStep]
  refine ⟨hc0, hqq, ?_, hsavedNil, ?_⟩ <;>
    simp [resolveLoginCode, hcond, husedF]

/-- Claim C5: credential precedence explicit > saved > freshly scanned. A
`--code` CLI entry overrides whatever `CODE` put in the options; the saved
file is consulted only when no explicit code was supplied and the platform
is qq; the saved value, when adopted, is final; a QR scan happens only
when neither an explicit nor a saved credential exists (qq platform). -/
theorem c5_code_precedence
    (pInt : String → Option Int) (env : EnvVars) (pl : String)
    (m1 m2 : ArgsMap) (v : String)
    (c0 : ArgVal) (plat : String) (saved : Option String)
    (qr tok : Bool) (scan : String)
    (hm2 : ∀ kv ∈ m2, kv.1 ≠ "--code") :
    (parseArgs pInt env pl (m1 ++ ("--code", ArgVal.str v) :: m2)).code
      = ArgVal.str v
    ∧ ((resolveLoginCode c0 plat saved qr tok scan).consultedSaved = true →
        jsTruthyArg c0 = false ∧ plat = "qq")
    ∧ ((resolveLoginCode c0 plat saved qr tok scan).usedSavedCode = true →
        jsTruthyArg c0 = false ∧ plat = "qq"
        ∧ ∃ sc, saved = some sc ∧ sc ≠ ""
          ∧ (resolveLoginCode c0 plat saved qr tok scan).code
              = ArgVal.str sc)
    ∧ ((resolveLoginCode c0 plat saved qr tok scan).scanned = true →
        jsTruthyArg c0 = false ∧ plat = "qq"
        ∧ (resolveLoginCode c0 plat saved qr tok scan).usedSavedCode = false
        ∧ (saved = none ∨ saved = some "")
        ∧ (resolveLoginCode c0 plat saved qr tok scan).code
            = ArgVal.str scan) := by
  refine ⟨?_, ?_, ?_, ?_⟩
  · have hcore : (parseArgs pInt env pl
        (m1 ++ ("--code", ArgVal.str v) :: m2)).code
        = ((m1 ++ ("--code", ArgVal.str v) :: m2).foldl (paStep pInt)
            (paInit pInt env pl)).code := rfl
    rw [hcore, List.foldl_append, List.foldl_cons,
      foldl_paStep_code_of_no_code pInt m2 _ hm2]
    simp [paStep]
  · intro h
    rw [resolveLoginCode_consultedSaved] at h
    exact consultSavedCond_spec c0 plat h
  · intro h
    obtain ⟨hc, sc, hsome, hne, hcode⟩ :=
      resolveLoginCode_usedSaved c0 plat saved qr tok scan h
    obtain ⟨h1, h2⟩ := consultSavedCond_spec c0 plat hc
    exact ⟨h1, h2, sc, hsome, hne, hcode⟩
  · exact resolveLoginCode_scanned c0 plat saved qr tok scan

/-- Claim C5 witness: CLI `--code abc` wins over `CODE=zzz`; a blank
explicit code on qq with nothing saved leads to a scan. -/
theorem c5_witness :
    (parseArgs pIntEx
        { CODE := some "zzz", PLATFORM := none, QR_LOGIN := none,
          INTERVAL := none, FRIEND_INTERVAL := none } "qq"
        ([] ++ ("--code", ArgVal.str "abc") :: [])).code = ArgVal.str "abc"
    ∧ ((resolveLoginCode (ArgVal.str "") "qq" none false false
          "scanned").consultedSaved = true →
        jsTruthyArg (ArgVal.str "") = false ∧ "qq" = "qq")
    ∧ ((resolveLoginCode (ArgVal.str "") "qq" none false false
          "scanned").usedSavedCode = true →
        jsTruthyArg (ArgVal.str "") = false ∧ "qq" = "qq"
        ∧ ∃ sc, (none : Option String) = some sc ∧ sc ≠ ""
          ∧ (resolveLoginCode (ArgVal.str "") "qq" none false false
              "scanned").code = ArgVal.str sc)
    ∧ ((resolveLoginCode (ArgVal.str "") "qq" none false false
          "scanned").scanned = true →
        jsTruthyArg (ArgVal.str "") = false ∧ "qq" = "qq"
        ∧ (resolveLoginCode (ArgVal.str "") "qq" none false false
            "scanned").usedSavedCode = false
        ∧ ((none : Option String) = none ∨ (none : Option String) = some "")
        ∧ (resolveLoginCode (ArgVal.str "") "qq" none false false
            "scanned").code = ArgVal.str "scanned") :=
  c5_code_precedence pIntEx
    { CODE := some "zzz", PLATFORM := none, QR_LOGIN := none,
      INTERVAL := none, FRIEND_INTERVAL := none } "qq"
    [] [] "abc" (ArgVal.str "") "qq" none false false "scanned"
    (by simp)

end QQFarmBot
